import Mathlib

/-!
Verification of the Submission Integrity & Incentive Engine
(`backend/app.py` of the DL_PROJECT repository).

The Python code is shallowly embedded: pure helpers become Lean functions,
each database-touching endpoint becomes an explicit state-transition function
on a record of tables (maps keyed by the relevant unique key), and Python
floats are modelled as exact rationals.  A failure-injection record stands
for the possibility that an individual SQL statement raises, so that the
transactional error-handling paths of the source are part of the model.
Text is modelled as `List Char`; identifiers and status enums as `String`.
-/

namespace Cognit

/-! ## Configuration

`MIN_WORD_COUNT` and `TOO_FAST_SECONDS` are environment-level parameters
(defaults 60 and 5 in the source); they are passed explicitly. -/

structure Config where
  min_word_count : Nat
  too_fast_seconds : ℚ
deriving DecidableEq

/-- The source defaults: MIN_WORD_COUNT = 60, TOO_FAST_SECONDS = 5. -/
def defaultConfig : Config := { min_word_count := 60, too_fast_seconds := 5 }

/-! ## Text helpers (`count_words`, Python `str.strip`, `str.lower`) -/

/-- Python `str.lstrip()`: drop leading whitespace. -/
def lstrip (s : List Char) : List Char := s.dropWhile Char.isWhitespace

/-- Python `str.strip()`: drop leading and trailing whitespace. -/
def pstrip (s : List Char) : List Char := (lstrip (lstrip s).reverse).reverse

/-- Python `str.lower()`, restricted to the character-wise lowercasing
that Lean provides. -/
def plower (s : List Char) : List Char := s.map Char.toLower

/-- Embeds `count_words` from `app.py`: the number of maximal nonempty
runs of non-whitespace characters (`len(text.strip().split())`). -/
def count_words_aux : List Char → Bool → Nat
  | [], _ => 0
  | c :: rest, inWord =>
      if c.isWhitespace then count_words_aux rest false
      else (if inWord then 0 else 1) + count_words_aux rest true

/-- Embeds `count_words(text)` from `app.py`. -/
def count_words (s : List Char) : Nat := count_words_aux s false

/-! ## Quality scorer (`calculate_quality_score`) -/

/-- Python `round(q, 3)` modelled over exact rationals: scale by 1000,
round (ties upward) and scale back. -/
def round3 (q : ℚ) : ℚ := ((Int.floor (q * 1000 + 1/2) : ℤ) : ℚ) / 1000

/-- Embeds the word sub-score: `min(word_count / 150.0, 1.0)`. -/
def word_score (word_count : Nat) : ℚ := min ((word_count : ℚ) / 150) 1

/-- Embeds the attention sub-score:
`1.0 if attention_passed is not False else 0.0`.
`attention_passed` is `None` for a non-attention submission, hence the
`Option Bool` argument. -/
def attention_subscore (attention_passed : Option Bool) : ℚ :=
  match attention_passed with
  | some false => 0
  | _ => 1

/-- Embeds the time sub-score:
`0.5 if time_spent_seconds and time_spent_seconds < TOO_FAST_SECONDS else 1.0`.
Python truthiness makes both `None` and `0` fall to the `else` branch. -/
def time_subscore (tooFast : ℚ) (time_spent_seconds : Option ℚ) : ℚ :=
  match time_spent_seconds with
  | some t => if t ≠ 0 ∧ t < tooFast then 1/2 else 1
  | none => 1

/-- Embeds the feedback sub-score: `min(len(feedback) / 50.0, 1.0)`. -/
def feedback_subscore (feedback_len : Nat) : ℚ := min ((feedback_len : ℚ) / 50) 1

/-- Embeds `calculate_quality_score(word_count, attention_passed,
time_spent_seconds, feedback)` from `app.py`: a weighted sum of the four
sub-scores, rounded to three decimals. -/
def calculate_quality_score (tooFast : ℚ) (word_count : Nat)
    (attention_passed : Option Bool) (time_spent_seconds : Option ℚ)
    (feedback : List Char) : ℚ :=
  round3 (4/10 * word_score word_count
    + 3/10 * attention_subscore attention_passed
    + 2/10 * time_subscore tooFast time_spent_seconds
    + 1/10 * feedback_subscore feedback.length)

/-- The time sub-score as the specification states it: 0.5 exactly when
the elapsed time is strictly below the too-fast threshold.  Used only to
compare the spec text against the source. -/
def time_subscore_spec (tooFast : ℚ) (t : ℚ) : ℚ := if t < tooFast then 1/2 else 1

/-- The quality score as the specification states it, with the
spec version of the time sub-score.  Used only to compare the spec text
against the source. -/
def calculate_quality_score_spec (tooFast : ℚ) (word_count : Nat)
    (attention_passed : Option Bool) (t : ℚ) (feedback : List Char) : ℚ :=
  round3 (4/10 * word_score word_count
    + 3/10 * attention_subscore attention_passed
    + 2/10 * time_subscore_spec tooFast t
    + 1/10 * feedback_subscore feedback.length)

/-! ## Submission time parsing

In `submit`, `time_spent_seconds` is run through `float(...)`; on
`TypeError`/`ValueError` (missing or unparseable) it becomes `NULL` and
`too_fast_flag` stays `False`.  A raw value of `none` stands for the
missing/unparseable case. -/

/-- Embeds the `too_fast_flag` / `time_spent_seconds` parsing block of
`submit` in `app.py`. -/
def parse_time (tooFast : ℚ) (raw : Option ℚ) : Option ℚ × Bool :=
  match raw with
  | some t => (some t, decide (t < tooFast))
  | none => (none, false)

/-! ## Attention evaluator

`submit` looks up an active `attention_checks` row keyed by `image_id`.
If found it lowercases the description; with `strict` it searches for the
regex `\b{re.escape(expected_word)}\b` (whole-word, the expected term being
stripped and lowercased first), otherwise it tests substring containment.
Word characters are modelled as alphanumeric-or-underscore, the ASCII core
of the regex `\w` class. -/

/-- A regex word character: letter, digit or underscore. -/
def isWordChar (c : Char) : Bool := c.isAlphanum || c = '_'

/-- Whether position `i` of `t` holds a word character
(out-of-range positions count as non-word). -/
def charIsWord (t : List Char) (i : Nat) : Bool :=
  match t.get? i with
  | some c => isWordChar c
  | none => false

/-- The regex word-boundary `\b` at position `p` of `t`: exactly one of the
character before and the character at `p` is a word character. -/
def word_boundary_at (t : List Char) (p : Nat) : Bool :=
  (decide (0 < p) && charIsWord t (p - 1)) != charIsWord t p

/-- Embeds `re.search(rf"\b{re.escape(expected_word)}\b", description_lower)`
from `submit`: some occurrence of `w` in `t` flanked by word boundaries. -/
def whole_word_match (w t : List Char) : Bool :=
  (List.range (t.length + 1)).any fun i =>
    decide ((t.drop i).take w.length = w) && word_boundary_at t i
      && word_boundary_at t (i + w.length)

/-- The mathematical reading of the strict attention match: an occurrence
of the term at some position, with a word boundary on each side. -/
def WholeWordOccurrence (w t : List Char) : Prop :=
  ∃ i, i + w.length ≤ t.length ∧ (t.drop i).take w.length = w
    ∧ word_boundary_at t i = true ∧ word_boundary_at t (i + w.length) = true

/-- One row of the admin-curated `attention_checks` catalog. -/
structure AttentionCheckRow where
  expected_word : List Char
  strict : Bool
  is_active : Bool
deriving DecidableEq

/-- Embeds the lookup
`SELECT expected_word, strict FROM attention_checks WHERE image_id = :image_id AND is_active = TRUE`:
the catalog is a map keyed by the unique `image_id`, filtered on `is_active`. -/
def active_attention_check (m : String → Option AttentionCheckRow)
    (image_id : String) : Option AttentionCheckRow :=
  match m image_id with
  | some r => if r.is_active then some r else none
  | none => none

/-- Embeds the attention-evaluation block of `submit`: no active row gives
`(is_attention := false, passed := none)`; an active row strips and
lowercases the expected term, lowercases the description, and matches
whole-word when `strict`, substring otherwise. -/
def evaluate_attention (check : Option AttentionCheckRow)
    (description : List Char) : Bool × Option Bool :=
  match check with
  | none => (false, none)
  | some row =>
      let expected := plower (pstrip row.expected_word)
      let dlow := plower description
      if row.strict then (true, some (whole_word_match expected dlow))
      else (true, some (decide (expected <:+: dlow)))

/-! ## Data model

Rows of the tables the engine touches, with the fields the engine reads or
writes.  Tables are maps keyed by their unique key (`participant_id`,
`image_id`, `razorpay_order_id`); `submissions` is an append-only list.
Numeric SQL columns that can be `NULL` are `Option`-typed. -/

/-- A `participants` row (the fields `submit` reads). -/
structure ParticipantRow where
  consent_given : Bool
  payment_status : String
deriving DecidableEq

/-- An `attention_stats` row. -/
structure AttentionStatsRow where
  total_checks : Nat
  passed_checks : Nat
  failed_checks : Nat
  attention_score : ℚ
  is_flagged : Bool
deriving DecidableEq

/-- A `participant_stats` row.  `last_reward_attempt_at` is a timestamp in
whole seconds; `attention_score` is nullable (a row first created by the
reward lottery's cooldown stamp has no score). -/
structure ParticipantStatsRow where
  total_words : Nat
  total_submissions : Nat
  survey_rounds : Nat
  priority_eligible : Bool
  attention_score : Option ℚ
  last_reward_attempt_at : Option ℤ
deriving DecidableEq

/-- A `submissions` row (the engine-relevant fields). -/
structure SubmissionRow where
  participant_id : String
  image_id : String
  survey_index : ℤ
  description : List Char
  word_count : Nat
  rating : ℤ
  feedback : List Char
  time_spent_seconds : Option ℚ
  is_survey : Bool
  is_attention : Bool
  attention_passed : Option Bool
  too_fast_flag : Bool
  attention_score_at_submission : Option ℚ
  quality_score : ℚ
deriving DecidableEq

/-- The tables touched by the `submit` endpoint. -/
structure SubmitState where
  participants : String → Option ParticipantRow
  attention_stats : String → Option AttentionStatsRow
  attention_checks : String → Option AttentionCheckRow
  participant_stats : String → Option ParticipantStatsRow
  submissions : List SubmissionRow

/-- The rejection responses of `submit`, in source order. -/
inductive SubmitError where
  | missingParticipantId
  | flagged
  | notFound
  | paymentRequired
  | consentRequired
  | missingImageId
  | tooFewWords
  | ratingRequired
  | ratingInvalid
  | feedbackTooShort
deriving DecidableEq

/-- The overall result of a `submit` call: a 4xx rejection, the success
payload `{word_count, attention_passed, quality_score}`, or the 500
returned when the transaction fails and is rolled back. -/
inductive SubmitOutcome where
  | rejected (e : SubmitError)
  | ok (word_count : Nat) (attention_passed : Option Bool) (quality_score : ℚ)
  | dbError
deriving DecidableEq

/-- The request payload of `submit`.  `rating = none` is a missing field
and `rating = some none` a value `int()` cannot parse;
`time_spent_seconds = none` is a value `float()` cannot parse (missing
included); `survey_index = none` falls back to 0. -/
structure SubmitPayload where
  participant_id : Option String
  description : List Char
  image_id : Option String
  rating : Option (Option ℤ)
  feedback : List Char
  time_spent_seconds : Option ℚ
  is_survey : Bool
  survey_index : Option ℤ

/-- Failure injection for the three SQL statements of the submission
transaction that the spec names; a `true` flag means that statement
raises when executed. -/
structure FailSpec where
  submission_insert : Bool
  attention_upsert : Bool
  pstats_upsert : Bool
deriving DecidableEq

/-- The run in which no statement raises. -/
def noFail : FailSpec :=
  { submission_insert := false, attention_upsert := false, pstats_upsert := false }

/-- Embeds the flag lookup of `submit`
(`SELECT is_flagged FROM attention_stats ...`; a missing row is not
flagged). -/
def flagged_check (r : Option AttentionStatsRow) : Bool :=
  match r with
  | some a => a.is_flagged
  | none => false

/-- Embeds the snapshot read of `submit`:
`attention_score_snapshot = stats_result[0] if stats_result else 1.0` —
a participant with no attention history counts as full trust 1.0. -/
def attention_snapshot (r : Option AttentionStatsRow) : ℚ :=
  match r with
  | some a => a.attention_score
  | none => 1

/-- The validated data carried from the admission/validation prefix of
`submit` into its transaction. -/
structure PrecheckData where
  pid : String
  description : List Char
  image_id : String
  word_count : Nat
  rating : ℤ
  feedback : List Char
deriving DecidableEq

/-- Embeds the admission and validation prefix of `submit`, in source
order: missing participant id, flag check, participant lookup, payment
check, consent check, missing image id, minimum word count, rating
required and range, feedback length.  All of it is read-only. -/
def submit_precheck (cfg : Config) (s : SubmitState) (p : SubmitPayload) :
    Except SubmitError PrecheckData :=
  match p.participant_id with
  | none => .error .missingParticipantId
  | some pid =>
    if flagged_check (s.attention_stats pid) then .error .flagged
    else
      match s.participants pid with
      | none => .error .notFound
      | some prow =>
        if prow.payment_status ≠ "paid" then .error .paymentRequired
        else if !prow.consent_given then .error .consentRequired
        else
          match p.image_id with
          | none => .error .missingImageId
          | some image_id =>
            if count_words (pstrip p.description) < cfg.min_word_count then
              .error .tooFewWords
            else
              match p.rating with
              | none => .error .ratingRequired
              | some none => .error .ratingInvalid
              | some (some r) =>
                if r < 1 ∨ 10 < r then .error .ratingInvalid
                else
                  if (pstrip p.feedback).length < 5 then .error .feedbackTooShort
                  else .ok { pid := pid, description := pstrip p.description,
                             image_id := image_id,
                             word_count := count_words (pstrip p.description),
                             rating := r, feedback := pstrip p.feedback }

/-- Embeds the attention-stats upsert of `submit`: increment the counters
per outcome, recompute `attention_score = passed/total` and
`is_flagged = score < 0.6 and total >= 3`. -/
def attention_stats_step (prev : Option AttentionStatsRow) (passed : Bool) :
    AttentionStatsRow :=
  match prev with
  | some st =>
      let total := st.total_checks + 1
      let passedN := st.passed_checks + (if passed then 1 else 0)
      let failedN := st.failed_checks + (if passed then 0 else 1)
      let score : ℚ := (passedN : ℚ) / (total : ℚ)
      { total_checks := total, passed_checks := passedN, failed_checks := failedN,
        attention_score := score, is_flagged := decide (score < 3/5 ∧ 3 ≤ total) }
  | none =>
      let total : Nat := 1
      let passedN : Nat := if passed then 1 else 0
      let failedN : Nat := if passed then 0 else 1
      let score : ℚ := (passedN : ℚ) / (total : ℚ)
      { total_checks := total, passed_checks := passedN, failed_checks := failedN,
        attention_score := score, is_flagged := decide (score < 3/5 ∧ 3 ≤ total) }

/-- Embeds `_update_participant_stats_internal` from `app.py`.  The whole
body sits in a bare `except Exception: pass`, so a raising statement
(`raises = true`) leaves the map unchanged instead of propagating; the
same happens when the carried-forward attention score is `NULL`, because
`None >= 0.75` raises `TypeError` inside the same `try`. -/
def update_participant_stats_internal (m : String → Option ParticipantStatsRow)
    (pid : String) (word_count : Nat) (is_survey : Bool)
    (attention_score : Option ℚ) (raises : Bool) :
    String → Option ParticipantStatsRow :=
  if raises then m
  else
    match m pid with
    | some row =>
        let new_words := row.total_words + word_count
        let new_submissions := row.total_submissions + 1
        let new_survey_rounds := row.survey_rounds + (if is_survey then 1 else 0)
        match (match attention_score with
               | some a => some a
               | none => row.attention_score) with
        | none => m
        | some cur =>
            let priority_eligible :=
              decide ((500 ≤ new_words ∨ 3 ≤ new_survey_rounds) ∧ 3/4 ≤ cur)
            fun x => if x = pid then
                some { total_words := new_words, total_submissions := new_submissions,
                       survey_rounds := new_survey_rounds,
                       priority_eligible := priority_eligible,
                       attention_score := some cur,
                       last_reward_attempt_at := row.last_reward_attempt_at }
              else m x
    | none =>
        let new_words := word_count
        let new_submissions : Nat := 1
        let new_survey_rounds : Nat := if is_survey then 1 else 0
        let cur : ℚ := match attention_score with | some a => a | none => 1
        let priority_eligible :=
          decide ((500 ≤ new_words ∨ 3 ≤ new_survey_rounds) ∧ 3/4 ≤ cur)
        fun x => if x = pid then
            some { total_words := new_words, total_submissions := new_submissions,
                   survey_rounds := new_survey_rounds,
                   priority_eligible := priority_eligible,
                   attention_score := some cur,
                   last_reward_attempt_at := none }
          else m x

/-- The `submissions` row written by the INSERT of `submit`:
`survey_index` falls back to 0, the attention-score snapshot is taken only
for an attention check, and the quality score is persisted verbatim. -/
def submission_row_of (cfg : Config) (s : SubmitState) (p : SubmitPayload)
    (d : PrecheckData) (is_attention : Bool) (attention_passed : Option Bool)
    (tss : Option ℚ) (too_fast_flag : Bool) : SubmissionRow :=
  { participant_id := d.pid, image_id := d.image_id,
    survey_index := p.survey_index.getD 0, description := d.description,
    word_count := d.word_count, rating := d.rating, feedback := d.feedback,
    time_spent_seconds := tss, is_survey := p.is_survey,
    is_attention := is_attention, attention_passed := attention_passed,
    too_fast_flag := too_fast_flag,
    attention_score_at_submission :=
      (if is_attention then some (attention_snapshot (s.attention_stats d.pid))
        else none),
    quality_score :=
      calculate_quality_score cfg.too_fast_seconds d.word_count attention_passed
        tss d.feedback }

/-- Embeds the transaction of `submit`: insert the submission row, upsert
attention stats when the image was an attention check, run the
participant-stats upsert (whose failures are swallowed by its own bare
except), then commit.  A raising submission insert or attention upsert is
caught by the enclosing handler, which rolls the whole transaction back
(returning the initial state) and produces the 500 response. -/
def submit_txn (cfg : Config) (s : SubmitState) (p : SubmitPayload)
    (d : PrecheckData) (is_attention : Bool) (attention_passed : Option Bool)
    (tss : Option ℚ) (too_fast_flag : Bool) (ff : FailSpec) :
    SubmitOutcome × SubmitState :=
  if ff.submission_insert then (.dbError, s)
  else if is_attention then
    if ff.attention_upsert then (.dbError, s)
    else
      (.ok d.word_count attention_passed
        (calculate_quality_score cfg.too_fast_seconds d.word_count
          attention_passed tss d.feedback),
       { s with
         submissions := s.submissions
           ++ [submission_row_of cfg s p d is_attention attention_passed tss too_fast_flag],
         attention_stats :=
           (fun x => if x = d.pid then
               some (attention_stats_step (s.attention_stats d.pid)
                 (attention_passed.getD false))
             else s.attention_stats x),
         participant_stats :=
           (update_participant_stats_internal s.participant_stats d.pid
             d.word_count p.is_survey
             (some (attention_stats_step (s.attention_stats d.pid)
               (attention_passed.getD false)).attention_score)
             ff.pstats_upsert) })
  else
    (.ok d.word_count attention_passed
      (calculate_quality_score cfg.too_fast_seconds d.word_count
        attention_passed tss d.feedback),
     { s with
       submissions := s.submissions
         ++ [submission_row_of cfg s p d is_attention attention_passed tss too_fast_flag],
       participant_stats :=
         (update_participant_stats_internal s.participant_stats d.pid
           d.word_count p.is_survey none ff.pstats_upsert) })

/-- Embeds the `submit` endpoint of `app.py`: admission and validation
prefix, attention evaluation, elapsed-time parsing, then the transaction. -/
def submit (cfg : Config) (s : SubmitState) (p : SubmitPayload) (ff : FailSpec) :
    SubmitOutcome × SubmitState :=
  match submit_precheck cfg s p with
  | .error e => (.rejected e, s)
  | .ok d =>
      submit_txn cfg s p d
        (evaluate_attention (active_attention_check s.attention_checks d.image_id)
          d.description).1
        (evaluate_attention (active_attention_check s.attention_checks d.image_id)
          d.description).2
        (parse_time cfg.too_fast_seconds p.time_spent_seconds).1
        (parse_time cfg.too_fast_seconds p.time_spent_seconds).2 ff

/-! ## Concrete fixtures used by witnesses and counterexamples -/

/-- A small configuration (minimum one word, too-fast threshold 5 s)
instantiating the environment parameters. -/
def wConfig : Config := { min_word_count := 1, too_fast_seconds := 5 }

/-- A paid, consenting participant. -/
def wParticipantPaid : ParticipantRow :=
  { consent_given := true, payment_status := "paid" }

/-- An unpaid participant who has also not consented. -/
def wParticipantUnpaid : ParticipantRow :=
  { consent_given := false, payment_status := "created" }

/-- An active non-strict attention check expecting the term `cat`. -/
def wCheckCat : AttentionCheckRow :=
  { expected_word := ['c', 'a', 't'], strict := false, is_active := true }

/-- Base state: one paid participant `p1`, one active check on `img1`,
no stats, no submissions. -/
def wStateBase : SubmitState :=
  { participants := fun x => if x = "p1" then some wParticipantPaid else none,
    attention_stats := fun _ => none,
    attention_checks := fun x => if x = "img1" then some wCheckCat else none,
    participant_stats := fun _ => none,
    submissions := [] }

/-- Same state with `p1` unpaid and non-consenting. -/
def wStateUnpaid : SubmitState :=
  { wStateBase with participants :=
      (fun x => if x = "p1" then some wParticipantUnpaid else none) }

/-- A valid submission payload from `p1` for `img1` whose description
contains the expected term, with no parseable elapsed time. -/
def wPayload : SubmitPayload :=
  { participant_id := some "p1",
    description := ['a', ' ', 'c', 'a', 't'],
    image_id := some "img1",
    rating := some (some 5),
    feedback := ['g', 'o', 'o', 'd', ' ', 'o', 'n', 'e'],
    time_spent_seconds := none,
    is_survey := false,
    survey_index := none }

/-! ## Reward lottery (`select_reward_winner`)

Time is modelled in whole seconds (ℤ); `random.random()` is an explicit
`draw` argument; the winner table is a list of `(participant_id, row)`
pairs so that the uniqueness constraint is a property, not a typing
artifact. -/

/-- A `reward_winners` row. -/
structure RewardWinnerRow where
  reward_amount : Nat
  status : String
deriving DecidableEq

/-- The tables touched by `select_reward_winner`. -/
structure LotteryState where
  winners : List (String × RewardWinnerRow)
  participant_stats : String → Option ParticipantStatsRow

/-- The JSON results of `select_reward_winner`. -/
inductive LotteryResult where
  | alreadyWinner
  | cooldownActive (retry_after : ℤ)
  | selected (reward_amount : Nat)
  | notSelected (priority_eligible : Bool)
  | dbError
deriving DecidableEq

/-- Modelled from the spec: the unique key on
`reward_winners.participant_id`.  The schema (`schema.sql`, applied to the
hosted database through its SQL editor) is not part of the source snapshot;
the spec states `unique key = participant` and that the winner insert must
fail on conflict rather than create a duplicate, so the insert errors when
a row for the participant already exists and otherwise prepends the row. -/
def insert_winner (t : List (String × RewardWinnerRow)) (pid : String)
    (row : RewardWinnerRow) : Except Unit (List (String × RewardWinnerRow)) :=
  if t.any (fun e => e.1 = pid) then .error () else .ok ((pid, row) :: t)

/-- How many winner rows a participant holds. -/
def winner_count (t : List (String × RewardWinnerRow)) (pid : String) : Nat :=
  (t.filter (fun e => e.1 = pid)).length

/-- Any effect a `select_reward_winner` call can have on the winners table:
either it leaves it alone or it performs one constrained insert.  Arbitrary
interleavings of concurrent calls produce chains of such steps, because the
constrained insert is the only statement of the endpoint that writes this
table. -/
def WinnersWrite (t t2 : List (String × RewardWinnerRow)) : Prop :=
  t2 = t ∨ ∃ pid row, insert_winner t pid row = .ok t2

/-- Embeds the cooldown check of `select_reward_winner`: with a stored
`last_reward_attempt_at` less than 60 seconds old, the remaining seconds
`60 - int(time_since_last)`; otherwise nothing. -/
def cooldown_remaining (row : Option ParticipantStatsRow) (now : ℤ) : Option ℤ :=
  match row with
  | some st =>
      match st.last_reward_attempt_at with
      | some last => if now - last < 60 then some (60 - (now - last)) else none
      | none => none
  | none => none

/-- Embeds `priority_eligible = bool(stats_row[0]) if stats_row else False`
from `select_reward_winner`.  `stats_row` is the result of
`SELECT last_reward_attempt_at FROM participant_stats ...`, so `stats_row[0]`
is the `last_reward_attempt_at` column — the boost keys off the presence of
a previous attempt timestamp, not off the stored `priority_eligible` flag. -/
def lottery_priority_eligible (row : Option ParticipantStatsRow) : Bool :=
  match row with
  | some st => st.last_reward_attempt_at.isSome
  | none => false

/-- Embeds the attention read of `select_reward_winner`:
`attention_row[0] if attention_row and attention_row[0] is not None else 1.0`. -/
def lottery_attention_score (row : Option ParticipantStatsRow) : ℚ :=
  match row with
  | some st => match st.attention_score with | some a => a | none => 1
  | none => 1

/-- Embeds the probability arithmetic of `select_reward_winner`:
`max(0.01, 0.05 + (0.10 if priority else 0) + (0 if attention >= 0.75 else -0.15))`. -/
def selection_probability (priority_eligible : Bool) (attention_score : ℚ) : ℚ :=
  max (1/100) (1/20 + (if priority_eligible then 1/10 else 0)
    + (if 3/4 ≤ attention_score then 0 else -(3/20)))

/-- The selection probability as the claim/spec states it: the 0.10 boost
keyed off the STORED `priority_eligible` flag (and the 0.15 penalty off the
stored attention score, defaulting to full trust when null).  Used only to
compare the spec text against the source. -/
def claimed_selection_probability (row : ParticipantStatsRow) : ℚ :=
  max (1/100) (1/20 + (if row.priority_eligible then 1/10 else 0)
    + (if 3/4 ≤ (match row.attention_score with | some a => a | none => 1)
        then 0 else -(3/20)))

/-- Embeds the cooldown stamp
`INSERT INTO participant_stats (participant_id, last_reward_attempt_at)
VALUES (:pid, CURRENT_TIMESTAMP) ON CONFLICT DO UPDATE SET
last_reward_attempt_at = CURRENT_TIMESTAMP`.  Columns absent from the
insert take their defaults, modelled as zero/false/NULL. -/
def stamp_last_attempt (m : String → Option ParticipantStatsRow) (pid : String)
    (now : ℤ) : String → Option ParticipantStatsRow :=
  fun x => if x = pid then
      some (match m pid with
        | some r => { r with last_reward_attempt_at := some now }
        | none =>
            { total_words := 0, total_submissions := 0, survey_rounds := 0,
              priority_eligible := false, attention_score := none,
              last_reward_attempt_at := some now })
    else m x

/-- Embeds `select_reward_winner` from `app.py`: return `already_winner`
if a winner row exists; return `cooldown_active` with the remaining
seconds if the last attempt is under 60 s old, advancing nothing; else
stamp the attempt time, draw, and on a win insert the winner row
(amount 10, status `pending`).  A raising insert (unique-key conflict)
is caught and rolls the call back. -/
def select_reward_winner (s : LotteryState) (pid : String) (now : ℤ)
    (draw : ℚ) : LotteryResult × LotteryState :=
  if s.winners.any (fun e => e.1 = pid) then (.alreadyWinner, s)
  else
    match cooldown_remaining (s.participant_stats pid) now with
    | some retry => (.cooldownActive retry, s)
    | none =>
        if draw < selection_probability
            (lottery_priority_eligible (s.participant_stats pid))
            (lottery_attention_score (s.participant_stats pid)) then
          match insert_winner s.winners pid
              { reward_amount := 10, status := "pending" } with
          | .ok w =>
              (.selected 10,
                { winners := w,
                  participant_stats :=
                    stamp_last_attempt s.participant_stats pid now })
          | .error _ => (.dbError, s)
        else
          (.notSelected (lottery_priority_eligible (s.participant_stats pid)),
            { s with participant_stats :=
                stamp_last_attempt s.participant_stats pid now })

/-- A participant-stats row of a non-priority participant with full
attention score whose last (losing) lottery attempt is old: the input on
which the source and the spec formula disagree. -/
def bugStatsRow : ParticipantStatsRow :=
  { total_words := 100, total_submissions := 2, survey_rounds := 0,
    priority_eligible := false, attention_score := some 1,
    last_reward_attempt_at := some 0 }

/-- Lottery state holding just `p1` with `bugStatsRow` and no winner row. -/
def bugLotteryState : LotteryState :=
  { winners := [],
    participant_stats := fun x => if x = "p1" then some bugStatsRow else none }

/-! ## Payment webhook (`payment_webhook`) -/

/-- A `payments` row (the fields the webhook touches). -/
structure PaymentRow where
  participant_id : String
  status : String
  razorpay_payment_id : Option String
  paid_at : Option ℤ
deriving DecidableEq

/-- The tables touched by the webhook transition: `payments` keyed by the
unique `razorpay_order_id`, and `participants`. -/
structure PayState where
  payments : String → Option PaymentRow
  participants : String → Option ParticipantRow

/-- Embeds the `payment.captured` branch of `payment_webhook`: a
conditional `UPDATE payments ... WHERE razorpay_order_id = :order_id AND
status != 'paid'`; only when that update changed a row (`rowcount > 0`)
does the `payment_status = 'paid'` propagation onto the participant run.
Signature verification and JSON framing happen before this transition and
are outside the model. -/
def payment_webhook_captured (s : PayState) (order_id payment_id : String)
    (now : ℤ) : PayState :=
  match s.payments order_id with
  | some pay =>
      if pay.status ≠ "paid" then
        { payments :=
            (fun x => if x = order_id then
                some ({ pay with
                        status := "paid",
                        razorpay_payment_id := some payment_id,
                        paid_at := some now })
              else s.payments x),
          participants :=
            (fun x => if x = pay.participant_id then
                (s.participants x).map
                  (fun pr => { pr with payment_status := "paid" })
              else s.participants x) }
      else s
  | none => s

/-- A created, unpaid order row of participant `p1`. -/
def wPayRow : PaymentRow :=
  { participant_id := "p1", status := "created",
    razorpay_payment_id := none, paid_at := none }

/-- A payment state: order `o1` of participant `p1`, created but unpaid. -/
def wPayState : PayState :=
  { payments := fun x => if x = "o1" then some wPayRow else none,
    participants := fun x => if x = "p1" then some wParticipantUnpaid else none }

/-! ## Bounds for the quality score -/

theorem word_score_mem (wc : Nat) : 0 ≤ word_score wc ∧ word_score wc ≤ 1 := by
  constructor
  · exact le_min (by positivity) zero_le_one
  · exact min_le_right _ _

theorem attention_subscore_mem (ap : Option Bool) :
    0 ≤ attention_subscore ap ∧ attention_subscore ap ≤ 1 := by
  rcases ap with _ | b
  · exact ⟨zero_le_one, le_refl 1⟩
  · cases b
    · exact ⟨le_refl 0, zero_le_one⟩
    · exact ⟨zero_le_one, le_refl 1⟩

theorem time_subscore_mem (tooFast : ℚ) (t : Option ℚ) :
    0 ≤ time_subscore tooFast t ∧ time_subscore tooFast t ≤ 1 := by
  unfold time_subscore
  rcases t with _ | v
  · norm_num
  · dsimp only; split <;> norm_num

theorem feedback_subscore_mem (n : Nat) :
    0 ≤ feedback_subscore n ∧ feedback_subscore n ≤ 1 := by
  constructor
  · exact le_min (by positivity) zero_le_one
  · exact min_le_right _ _

theorem round3_nonneg {q : ℚ} (h : 0 ≤ q) : 0 ≤ round3 q := by
  unfold round3
  have h1 : (0 : ℤ) ≤ Int.floor (q * 1000 + 1/2) := by
    apply Int.le_floor.mpr
    push_cast
    nlinarith
  have h2 : (0 : ℚ) ≤ (Int.floor (q * 1000 + 1/2) : ℚ) := by exact_mod_cast h1
  linarith

theorem round3_le_one {q : ℚ} (h : q ≤ 1) : round3 q ≤ 1 := by
  unfold round3
  have h1 : Int.floor (q * 1000 + 1/2) < 1001 := by
    rw [Int.floor_lt]
    push_cast
    nlinarith
  have h2 : Int.floor (q * 1000 + 1/2) ≤ 1000 := by omega
  rw [div_le_one (by norm_num)]
  exact_mod_cast h2

/-- C3, counterexample: at elapsed time exactly 0 (a numeric value strictly
below the too-fast threshold 5) the source gives the full time sub-score,
because `0.0` is falsy in `time_spent_seconds and time_spent_seconds < TOO_FAST_SECONDS`.
With word count 0, no attention check and empty feedback the source returns
0.5 while the formula of the claim returns 0.4. -/
theorem quality_time_zero_counterexample :
    calculate_quality_score 5 0 none (some 0) [] = 1/2
    ∧ calculate_quality_score_spec 5 0 none 0 [] = 2/5
    ∧ calculate_quality_score 5 0 none (some 0) []
        ≠ calculate_quality_score_spec 5 0 none 0 [] := by
  have h1 : calculate_quality_score 5 0 none (some 0) [] = 1/2 := by
    unfold calculate_quality_score word_score attention_subscore time_subscore
      feedback_subscore round3
    norm_num [min_def]
  have h2 : calculate_quality_score_spec 5 0 none 0 [] = 2/5 := by
    unfold calculate_quality_score_spec word_score attention_subscore
      time_subscore_spec feedback_subscore round3
    norm_num [min_def]
  refine ⟨h1, h2, ?_⟩
  rw [h1, h2]
  norm_num

/-- C3, amended: `calculate_quality_score` returns
`round3 (0.4 * min(wc/150,1) + 0.3 * a + 0.2 * t + 0.1 * min(len(feedback)/50,1))`
where `a` is 0 exactly when the attention check failed and 1 otherwise, and
`t` is 0.5 exactly when the elapsed time is present, nonzero and strictly
below the too-fast threshold — a missing or zero elapsed time gets the full
1.0, not the 0.5 the claim states — and the result always lies in `[0, 1]`. -/
theorem calculate_quality_score_formula_and_range (tooFast : ℚ) (wc : Nat)
    (ap : Option Bool) (t : Option ℚ) (feedback : List Char) :
    calculate_quality_score tooFast wc ap t feedback
      = round3 (4/10 * min ((wc : ℚ) / 150) 1
          + 3/10 * (if ap = some false then 0 else 1)
          + 2/10 * (match t with
                    | some v => if v ≠ 0 ∧ v < tooFast then 1/2 else 1
                    | none => 1)
          + 1/10 * min ((feedback.length : ℚ) / 50) 1)
    ∧ 0 ≤ calculate_quality_score tooFast wc ap t feedback
    ∧ calculate_quality_score tooFast wc ap t feedback ≤ 1 := by
  refine ⟨?_, ?_, ?_⟩
  · rcases ap with _ | b
    · rfl
    · cases b <;> rfl
  · apply round3_nonneg
    have h1 := word_score_mem wc
    have h2 := attention_subscore_mem ap
    have h3 := time_subscore_mem tooFast t
    have h4 := feedback_subscore_mem feedback.length
    nlinarith [h1.1, h2.1, h3.1, h4.1]
  · apply round3_le_one
    have h1 := word_score_mem wc
    have h2 := attention_subscore_mem ap
    have h3 := time_subscore_mem tooFast t
    have h4 := feedback_subscore_mem feedback.length
    nlinarith [h1.2, h2.2, h3.2, h4.2]

theorem whole_word_match_iff (w t : List Char) :
    whole_word_match w t = true ↔ WholeWordOccurrence w t := by
  unfold whole_word_match WholeWordOccurrence
  rw [List.any_eq_true]
  constructor
  · rintro ⟨i, hmem, hcond⟩
    simp only [Bool.and_eq_true, decide_eq_true_eq] at hcond
    obtain ⟨⟨hslice, hb1⟩, hb2⟩ := hcond
    refine ⟨i, ?_, hslice, hb1, hb2⟩
    have hi : i < t.length + 1 := List.mem_range.mp hmem
    have hlen : ((t.drop i).take w.length).length = w.length := by rw [hslice]
    rw [List.length_take, List.length_drop] at hlen
    omega
  · rintro ⟨i, hlen, hslice, hb1, hb2⟩
    refine ⟨i, List.mem_range.mpr (by omega), ?_⟩
    simp only [Bool.and_eq_true, decide_eq_true_eq]
    exact ⟨⟨hslice, hb1⟩, hb2⟩

/-- C9: the attention evaluation returns `(false, none)` exactly when no
active attention-check row exists for the image; when an active row exists,
`is_attention` is true and `passed = some true` holds iff the lowercased
description contains the (stripped, lowercased) expected term as a
whole word when `strict` is set, and as a substring otherwise. -/
theorem attention_evaluator_spec (m : String → Option AttentionCheckRow)
    (image_id : String) (d : List Char) :
    (evaluate_attention (active_attention_check m image_id) d = (false, none)
        ↔ active_attention_check m image_id = none)
    ∧ ∀ row, active_attention_check m image_id = some row →
        (evaluate_attention (active_attention_check m image_id) d).1 = true
        ∧ (row.strict = true →
            ((evaluate_attention (active_attention_check m image_id) d).2 = some true
              ↔ WholeWordOccurrence (plower (pstrip row.expected_word)) (plower d)))
        ∧ (row.strict = false →
            ((evaluate_attention (active_attention_check m image_id) d).2 = some true
              ↔ (plower (pstrip row.expected_word)) <:+: (plower d))) := by
  constructor
  · cases hc : active_attention_check m image_id with
    | none => simp [evaluate_attention]
    | some row =>
        simp only [evaluate_attention]
        constructor
        · intro h
          by_cases hs : row.strict
          · rw [if_pos hs] at h
            exact absurd (congrArg Prod.fst h) (by simp)
          · rw [if_neg hs] at h
            exact absurd (congrArg Prod.fst h) (by simp)
        · intro h
          cases h
  · intro row hrow
    rw [hrow]
    simp only [evaluate_attention]
    by_cases hs : row.strict
    · rw [if_pos hs]
      refine ⟨rfl, fun _ => ?_, fun hfalse => absurd hs (by simp [hfalse])⟩
      rw [Option.some_inj]
      exact whole_word_match_iff _ _
    · rw [if_neg hs]
      refine ⟨rfl, fun htrue => absurd htrue (by simpa using hs), fun _ => ?_⟩
      rw [Option.some_inj]
      exact decide_eq_true_iff

/-- C9, witness: a concrete active strict check with expected term
`"cat"` and the description `"A cat sat."`, evaluated through the theorem
and by direct computation. -/
theorem attention_evaluator_spec_witness :
    (evaluate_attention
        (active_attention_check
          (fun i => if i = "img1" then
              some { expected_word := [' ', 'C', 'a', 't'], strict := true, is_active := true }
            else none) "img1")
        ['A', ' ', 'c', 'a', 't', ' ', 's', 'a', 't', '.']).2 = some true := by
  have h := attention_evaluator_spec
    (fun i => if i = "img1" then
        some { expected_word := [' ', 'C', 'a', 't'], strict := true, is_active := true }
      else none) "img1"
    ['A', ' ', 'c', 'a', 't', ' ', 's', 'a', 't', '.']
  have hrow := (h.2 { expected_word := [' ', 'C', 'a', 't'], strict := true, is_active := true }
    (by decide)).2.1 rfl
  rw [hrow]
  refine ⟨2, by decide, by decide, by decide, by decide⟩

/-! ## Inversion lemmas for `submit` -/

theorem submit_precheck_pid {cfg : Config} {s : SubmitState} {p : SubmitPayload}
    {d : PrecheckData} (h : submit_precheck cfg s p = .ok d) :
    p.participant_id = some d.pid := by
  unfold submit_precheck at h
  cases hpid : p.participant_id with
  | none => rw [hpid] at h; exact absurd h (by simp)
  | some pid =>
      rw [hpid] at h
      dsimp only at h
      repeat' split at h
      all_goals first
        | exact Except.noConfusion h
        | (cases h; rfl)

theorem submit_txn_not_rejected (cfg : Config) (s : SubmitState) (p : SubmitPayload)
    (d : PrecheckData) (ia : Bool) (ap : Option Bool) (tss : Option ℚ)
    (tf : Bool) (ff : FailSpec) (e : SubmitError) (s2 : SubmitState)
    (h : submit_txn cfg s p d ia ap tss tf ff = (.rejected e, s2)) : False := by
  unfold submit_txn at h
  repeat' split at h
  all_goals simp at h

theorem submit_txn_db_error_rollback (cfg : Config) (s : SubmitState)
    (p : SubmitPayload) (d : PrecheckData) (ia : Bool) (ap : Option Bool)
    (tss : Option ℚ) (tf : Bool) (ff : FailSpec) (s2 : SubmitState)
    (h : submit_txn cfg s p d ia ap tss tf ff = (.dbError, s2)) : s2 = s := by
  unfold submit_txn at h
  repeat' split at h
  all_goals simp only [Prod.mk.injEq] at h
  all_goals first
    | exact h.2.symm
    | exact absurd h.1 (by simp)

theorem submit_txn_pstats_raises (cfg : Config) (s : SubmitState)
    (p : SubmitPayload) (d : PrecheckData) (ia : Bool) (ap : Option Bool)
    (tss : Option ℚ) (tf : Bool) (ff : FailSpec) (out : SubmitOutcome)
    (s2 : SubmitState) (hps : ff.pstats_upsert = true)
    (h : submit_txn cfg s p d ia ap tss tf ff = (out, s2)) :
    s2.participant_stats = s.participant_stats := by
  unfold submit_txn at h
  repeat' split at h
  all_goals simp only [Prod.mk.injEq] at h
  all_goals obtain ⟨h1, h2⟩ := h
  all_goals subst h2
  all_goals first
    | rfl
    | simp [update_participant_stats_internal, hps]

theorem submit_txn_ok_inversion (cfg : Config) (s : SubmitState)
    (p : SubmitPayload) (d : PrecheckData) (ia : Bool) (ap : Option Bool)
    (tss : Option ℚ) (tf : Bool) (ff : FailSpec) (wc : Nat) (ap0 : Option Bool)
    (q : ℚ) (s2 : SubmitState)
    (h : submit_txn cfg s p d ia ap tss tf ff = (.ok wc ap0 q, s2)) :
    wc = d.word_count ∧ ap0 = ap
      ∧ q = calculate_quality_score cfg.too_fast_seconds d.word_count ap tss d.feedback
      ∧ s2.submissions
          = s.submissions ++ [submission_row_of cfg s p d ia ap tss tf] := by
  unfold submit_txn at h
  repeat' split at h
  all_goals simp only [Prod.mk.injEq, SubmitOutcome.ok.injEq] at h
  all_goals first
    | (obtain ⟨⟨h1, h2, h3⟩, h4⟩ := h
       subst h4
       exact ⟨h1.symm, h2.symm, h3.symm, rfl⟩)
    | exact absurd h.1 (by simp)

theorem submit_txn_ok_attention (cfg : Config) (s : SubmitState)
    (p : SubmitPayload) (d : PrecheckData) (ap : Option Bool)
    (tss : Option ℚ) (tf : Bool) (ff : FailSpec) (out : SubmitOutcome)
    (s2 : SubmitState)
    (hsub : ff.submission_insert = false)
    (hatt : ff.attention_upsert = false)
    (h : submit_txn cfg s p d true ap tss tf ff = (out, s2)) :
    s2.attention_stats d.pid
      = some (attention_stats_step (s.attention_stats d.pid) (ap.getD false)) := by
  unfold submit_txn at h
  rw [hsub, hatt] at h
  simp only [Bool.false_eq_true, if_false, if_true, if_pos] at h
  obtain ⟨h1, h2⟩ := Prod.mk.injEq .. |>.mp h
  subst h2
  simp

theorem submit_txn_fst_not_rejected (cfg : Config) (s : SubmitState)
    (p : SubmitPayload) (d : PrecheckData) (ia : Bool) (ap : Option Bool)
    (tss : Option ℚ) (tf : Bool) (ff : FailSpec) (e : SubmitError)
    (h : (submit_txn cfg s p d ia ap tss tf ff).1 = .rejected e) : False := by
  unfold submit_txn at h
  repeat' split at h
  all_goals simp at h

theorem attention_stats_step_spec (prev : Option AttentionStatsRow) (passed : Bool) :
    (attention_stats_step prev passed).attention_score
        = ((attention_stats_step prev passed).passed_checks : ℚ)
          / ((attention_stats_step prev passed).total_checks : ℚ)
    ∧ 0 < (attention_stats_step prev passed).total_checks
    ∧ ((attention_stats_step prev passed).is_flagged = true
        ↔ ((attention_stats_step prev passed).attention_score < 3/5
            ∧ 3 ≤ (attention_stats_step prev passed).total_checks))
    ∧ ((attention_stats_step prev passed).total_checks < 3 →
        (attention_stats_step prev passed).is_flagged = false) := by
  have hiff : (attention_stats_step prev passed).is_flagged = true
      ↔ ((attention_stats_step prev passed).attention_score < 3/5
          ∧ 3 ≤ (attention_stats_step prev passed).total_checks) := by
    cases prev <;> exact decide_eq_true_iff
  refine ⟨?_, ?_, hiff, ?_⟩
  · cases prev <;> rfl
  · cases prev
    · exact Nat.one_pos
    · exact Nat.succ_pos _
  · intro hlt
    cases hflag : (attention_stats_step prev passed).is_flagged
    · rfl
    · exact absurd ((hiff.mp hflag).2) (by omega)

theorem evaluate_attention_some (check : Option AttentionCheckRow)
    (descr : List Char) (b : Bool)
    (h : (evaluate_attention check descr).2 = some b) :
    (evaluate_attention check descr).1 = true := by
  cases check with
  | none => exact absurd h (by simp [evaluate_attention])
  | some row =>
      unfold evaluate_attention
      dsimp only
      by_cases hs : row.strict = true
      · rw [if_pos hs]
      · rw [if_neg hs]

/-! ## Claim theorems about `submit` -/

/-- C8: a submit request by an existing, non-flagged participant whose
payment status is not `paid` is rejected with `PaymentRequired` regardless
of consent (and of the attention catalog), with no state change — the
admission checks run in the order flag, then payment, then consent. -/
theorem submit_payment_before_consent (cfg : Config) (s : SubmitState)
    (p : SubmitPayload) (ff : FailSpec) (pid : String) (prow : ParticipantRow)
    (h1 : p.participant_id = some pid)
    (h2 : flagged_check (s.attention_stats pid) = false)
    (h3 : s.participants pid = some prow)
    (h4 : prow.payment_status ≠ "paid") :
    submit cfg s p ff = (.rejected .paymentRequired, s) := by
  have hpre : submit_precheck cfg s p = .error .paymentRequired := by
    unfold submit_precheck
    rw [h1]
    dsimp only
    rw [h2, if_neg Bool.false_ne_true, h3]
    dsimp only
    rw [if_pos h4]
  unfold submit
  rw [hpre]

/-- C8, witness: the participant `p1` is unpaid and ALSO non-consenting,
and the response is `PaymentRequired`, not `ConsentRequired`. -/
theorem submit_payment_before_consent_witness :
    flagged_check (wStateUnpaid.attention_stats "p1") = false
    ∧ wParticipantUnpaid.consent_given = false
    ∧ wParticipantUnpaid.payment_status ≠ "paid"
    ∧ submit wConfig wStateUnpaid wPayload noFail
        = (.rejected .paymentRequired, wStateUnpaid) :=
  ⟨rfl, rfl, by decide,
    submit_payment_before_consent wConfig wStateUnpaid wPayload noFail
      "p1" wParticipantUnpaid rfl rfl rfl (by decide)⟩

/-- C2, amended: an exception in the submission insert or in the
attention-stats upsert makes the transaction return the 500 path with the
state rolled back to exactly the initial one; but an exception inside the
participant-stats upsert is swallowed by that helper's bare
`except Exception: pass`, so the transaction still commits — the
participant-stats table is left unchanged while the submission (and any
attention-stats) rows are committed. -/
theorem submit_rollback_and_stats_swallow (cfg : Config) (s : SubmitState)
    (p : SubmitPayload) (ff : FailSpec) (out : SubmitOutcome) (s2 : SubmitState)
    (h : submit cfg s p ff = (out, s2)) :
    (ff.pstats_upsert = true → s2.participant_stats = s.participant_stats)
    ∧ (out = .dbError → s2 = s) := by
  unfold submit at h
  cases hpre : submit_precheck cfg s p with
  | error e =>
      rw [hpre] at h
      obtain ⟨h1, h2⟩ := Prod.mk.injEq .. |>.mp h
      subst h2
      exact ⟨fun _ => rfl, fun _ => rfl⟩
  | ok d =>
      rw [hpre] at h
      refine ⟨fun hps => submit_txn_pstats_raises _ _ _ _ _ _ _ _ _ _ _ hps h, ?_⟩
      intro hdb
      subst hdb
      exact submit_txn_db_error_rollback _ _ _ _ _ _ _ _ _ _ h

/-- C2, witness for the amended claim: a run in which the participant-stats
upsert raises leaves the participant-stats table untouched. -/
theorem submit_rollback_and_stats_swallow_witness :
    ((submit wConfig wStateBase wPayload
        { submission_insert := false, attention_upsert := false,
          pstats_upsert := true }).2).participant_stats
      = wStateBase.participant_stats :=
  (submit_rollback_and_stats_swallow wConfig wStateBase wPayload
      { submission_insert := false, attention_upsert := false,
        pstats_upsert := true }
      (submit wConfig wStateBase wPayload
        { submission_insert := false, attention_upsert := false,
          pstats_upsert := true }).1
      (submit wConfig wStateBase wPayload
        { submission_insert := false, attention_upsert := false,
          pstats_upsert := true }).2 rfl).1 rfl

/-- C2, counterexample to the claim as stated: with the participant-stats
upsert raising (and everything else succeeding), the call still returns the
success payload and commits the submission row, leaving the participant
stats unchanged — the transaction is NOT rolled back, and a submission row
is committed without its participant-stats update. -/
theorem submit_stats_exception_not_rolled_back :
    (∃ q, (submit wConfig wStateBase wPayload
        { submission_insert := false, attention_upsert := false,
          pstats_upsert := true }).1 = .ok 2 (some true) q)
    ∧ ((submit wConfig wStateBase wPayload
        { submission_insert := false, attention_upsert := false,
          pstats_upsert := true }).2).submissions.length = 1
    ∧ wStateBase.submissions.length = 0
    ∧ ((submit wConfig wStateBase wPayload
        { submission_insert := false, attention_upsert := false,
          pstats_upsert := true }).2).participant_stats "p1" = none :=
  ⟨⟨_, rfl⟩, rfl, rfl, rfl⟩

/-- C5: after a submission processed as an attention check (one whose
`attention_passed` is non-null), the participant's attention-stats row has
`attention_score = passed_checks / total_checks` with `total_checks > 0`,
`is_flagged` holds iff `attention_score < 0.6` and `total_checks ≥ 3`
(hence never before the third check), and a participant with no attention
history reads as full-trust score 1.0. -/
theorem attention_stats_invariant_after_submit (cfg : Config) (s : SubmitState)
    (p : SubmitPayload) (pid : String) (b : Bool) (wc : Nat) (q : ℚ)
    (s2 : SubmitState)
    (hpid : p.participant_id = some pid)
    (h : submit cfg s p noFail = (.ok wc (some b) q, s2)) :
    (∃ r, s2.attention_stats pid = some r
      ∧ r.attention_score = (r.passed_checks : ℚ) / (r.total_checks : ℚ)
      ∧ 0 < r.total_checks
      ∧ (r.is_flagged = true ↔ (r.attention_score < 3/5 ∧ 3 ≤ r.total_checks))
      ∧ (r.total_checks < 3 → r.is_flagged = false))
    ∧ attention_snapshot none = 1 := by
  refine ⟨?_, rfl⟩
  unfold submit at h
  cases hpre : submit_precheck cfg s p with
  | error e =>
      rw [hpre] at h
      exact absurd (congrArg Prod.fst h) (by simp)
  | ok d =>
      rw [hpre] at h
      dsimp only at h
      have hdpid : d.pid = pid := by
        have h5 := submit_precheck_pid hpre
        rw [hpid] at h5
        exact (Option.some_inj.mp h5).symm
      have hap : (evaluate_attention
          (active_attention_check s.attention_checks d.image_id) d.description).2
          = some b :=
        (submit_txn_ok_inversion _ _ _ _ _ _ _ _ _ _ _ _ _ h).2.1.symm
      have hia := evaluate_attention_some _ _ _ hap
      rw [hia] at h
      have hatt := submit_txn_ok_attention _ _ _ _ _ _ _ _ _ _ rfl rfl h
      rw [hdpid] at hatt
      exact ⟨_, hatt, attention_stats_step_spec _ _⟩

/-- C5, witness: the concrete attention-check submission of `p1` leaves an
attention-stats row satisfying the invariant. -/
theorem attention_stats_invariant_after_submit_witness :
    (∃ r, ((submit wConfig wStateBase wPayload noFail).2).attention_stats "p1"
        = some r
      ∧ r.attention_score = (r.passed_checks : ℚ) / (r.total_checks : ℚ)
      ∧ 0 < r.total_checks
      ∧ (r.is_flagged = true ↔ (r.attention_score < 3/5 ∧ 3 ≤ r.total_checks))
      ∧ (r.total_checks < 3 → r.is_flagged = false))
    ∧ attention_snapshot none = 1 :=
  attention_stats_invariant_after_submit wConfig wStateBase wPayload "p1" true 2
    (calculate_quality_score 5 2 (some true) none (pstrip wPayload.feedback))
    (submit wConfig wStateBase wPayload noFail).2 rfl rfl

/-- C10: a missing or unparseable `time_spent_seconds` never causes a
rejection (the rejection outcome is the same as with any parseable time),
`float()` failure stores `NULL` with `too_fast_flag = false`, and the time
sub-score of the quality formula is then the full 1.0; an accepted
submission stores the row with `time_spent_seconds = NULL`,
`too_fast_flag = false` and the quality score computed with a null time. -/
theorem submit_missing_time_accepted (cfg : Config) (s : SubmitState)
    (p : SubmitPayload) (ff : FailSpec) (t : ℚ)
    (htime : p.time_spent_seconds = none) :
    (∀ e : SubmitError,
        ((submit cfg s p ff).1 = .rejected e
          ↔ (submit cfg s { p with time_spent_seconds := some t } ff).1
              = .rejected e))
    ∧ parse_time cfg.too_fast_seconds p.time_spent_seconds = (none, false)
    ∧ time_subscore cfg.too_fast_seconds none = 1
    ∧ (∀ wc ap q s2, submit cfg s p ff = (.ok wc ap q, s2) →
        ∃ row : SubmissionRow, s2.submissions = s.submissions ++ [row]
          ∧ row.time_spent_seconds = none
          ∧ row.too_fast_flag = false
          ∧ row.quality_score = calculate_quality_score cfg.too_fast_seconds
              row.word_count row.attention_passed none row.feedback
          ∧ q = row.quality_score) := by
  have hpre2 : submit_precheck cfg s { p with time_spent_seconds := some t }
      = submit_precheck cfg s p := rfl
  refine ⟨?_, by rw [htime]; rfl, rfl, ?_⟩
  · intro e
    unfold submit
    rw [hpre2]
    cases hpre : submit_precheck cfg s p with
    | error e0 => exact Iff.rfl
    | ok d =>
        constructor
        · intro hcontra
          exact absurd hcontra (fun hc =>
            submit_txn_fst_not_rejected _ _ _ _ _ _ _ _ _ _ hc)
        · intro hcontra
          exact absurd hcontra (fun hc =>
            submit_txn_fst_not_rejected _ _ _ _ _ _ _ _ _ _ hc)
  · intro wc ap q s2 h
    unfold submit at h
    cases hpre : submit_precheck cfg s p with
    | error e0 =>
        rw [hpre] at h
        exact absurd (congrArg Prod.fst h) (by simp)
    | ok d =>
        rw [hpre] at h
        rw [htime] at h
        obtain ⟨h1, h2, h3, h4⟩ := submit_txn_ok_inversion _ _ _ _ _ _ _ _ _ _ _ _ _ h
        refine ⟨_, h4, rfl, rfl, ?_, ?_⟩
        · rfl
        · rw [h3]; rfl

/-- C10, witness: the concrete payload with `time_spent_seconds` missing is
accepted, stores a null time with `too_fast_flag = false`, and its time
sub-score is 1. -/
theorem submit_missing_time_accepted_witness :
    wPayload.time_spent_seconds = none
    ∧ parse_time wConfig.too_fast_seconds wPayload.time_spent_seconds
        = (none, false)
    ∧ time_subscore wConfig.too_fast_seconds none = 1 :=
  ⟨rfl,
    (submit_missing_time_accepted wConfig wStateBase wPayload noFail 600 rfl).2.1,
    (submit_missing_time_accepted wConfig wStateBase wPayload noFail 600 rfl).2.2.1⟩

/-! ## Lottery lemmas and claim theorems -/

theorem stamp_last_attempt_self (m : String → Option ParticipantStatsRow)
    (pid : String) (now : ℤ) :
    ∃ st, stamp_last_attempt m pid now pid = some st
      ∧ st.last_reward_attempt_at = some now := by
  unfold stamp_last_attempt
  rw [if_pos rfl]
  cases m pid
  · exact ⟨_, rfl, rfl⟩
  · exact ⟨_, rfl, rfl⟩

theorem insert_winner_count (t t2 : List (String × RewardWinnerRow))
    (pid q0 : String) (row : RewardWinnerRow)
    (h : insert_winner t pid row = .ok t2) (hle : winner_count t q0 ≤ 1) :
    winner_count t2 q0 ≤ 1 := by
  unfold insert_winner at h
  split at h
  · exact absurd h (by simp)
  · next hany =>
      obtain hts := Except.ok.inj h
      subst hts
      unfold winner_count at hle ⊢
      rw [List.filter_cons]
      by_cases hq : pid = q0
      · subst hq
        have ht : t.filter (fun e => decide (e.1 = pid)) = [] := by
          rw [List.filter_eq_nil_iff]
          intro a ha
          simp only [decide_eq_true_eq]
          intro heq
          apply hany
          rw [List.any_eq_true]
          exact ⟨a, ha, by simp [heq]⟩
        simp [ht]
      · simp only [decide_eq_true_eq]
        rw [if_neg hq]
        exact hle

/-- C1, evaluation at the failing input: for a stored row with
`priority_eligible = false`, full attention score and an old
`last_reward_attempt_at`, the source computes selection probability 0.15 —
it derives the priority boost from `bool(stats_row[0])`, where `stats_row`
holds the `last_reward_attempt_at` column fetched by the cooldown query —
while the formula of the claim gives 0.05; a draw of 0.10 therefore wins
under the source although it must lose under the claim. -/
theorem selection_probability_uses_cooldown_column :
    bugStatsRow.priority_eligible = false
    ∧ lottery_priority_eligible (some bugStatsRow) = true
    ∧ selection_probability (lottery_priority_eligible (some bugStatsRow))
        (lottery_attention_score (some bugStatsRow)) = 3/20
    ∧ claimed_selection_probability bugStatsRow = 1/20
    ∧ ¬((1:ℚ)/10 < claimed_selection_probability bugStatsRow)
    ∧ (select_reward_winner bugLotteryState "p1" 1000 (1/10)).1 = .selected 10 := by
  refine ⟨rfl, rfl, ?_, ?_, ?_, ?_⟩
  · show selection_probability true 1 = 3/20
    rw [selection_probability]
    norm_num
  · rw [claimed_selection_probability]
    norm_num [bugStatsRow]
  · rw [claimed_selection_probability]
    norm_num [bugStatsRow]
  · unfold select_reward_winner
    rw [if_neg (by decide :
      ¬(bugLotteryState.winners.any (fun e => e.1 = "p1")) = true)]
    have hcool : cooldown_remaining (bugLotteryState.participant_stats "p1") 1000
        = none := by decide
    rw [hcool]
    have hprob : (1:ℚ)/10 < selection_probability
        (lottery_priority_eligible (bugLotteryState.participant_stats "p1"))
        (lottery_attention_score (bugLotteryState.participant_stats "p1")) := by
      show (1:ℚ)/10 < selection_probability true 1
      rw [selection_probability]
      norm_num
    rw [if_pos hprob]
    rfl

/-- C6: if a winner row already exists the call returns `already_winner`
with no state change; a `selected` result always carries amount 10 and
prepends exactly the row `(pid, amount 10, pending)`; every call's effect
on the winners table is a `WinnersWrite` step; and any chain of
`WinnersWrite` steps — the granularity at which arbitrary interleavings of
concurrent calls touch the table, the constrained insert being the only
write — keeps at most one winner row per participant. -/
theorem reward_winner_unique_and_idempotent
    (s : LotteryState) (pid : String) (now : ℤ) (draw : ℚ)
    (t t2 : List (String × RewardWinnerRow)) (q0 : String) :
    (s.winners.any (fun e => e.1 = pid) = true →
        select_reward_winner s pid now draw = (.alreadyWinner, s))
    ∧ (∀ res s2, select_reward_winner s pid now draw = (res, s2) →
        WinnersWrite s.winners s2.winners
        ∧ ∀ amount, res = .selected amount →
            amount = 10
            ∧ s2.winners
                = (pid, { reward_amount := 10, status := "pending" }) :: s.winners)
    ∧ (winner_count t q0 ≤ 1 → Relation.ReflTransGen WinnersWrite t t2 →
        winner_count t2 q0 ≤ 1) := by
  refine ⟨?_, ?_, ?_⟩
  · intro hw
    unfold select_reward_winner
    rw [if_pos hw]
  · intro res s2 hsel
    unfold select_reward_winner at hsel
    split at hsel
    · obtain ⟨h1, h2⟩ := Prod.mk.injEq .. |>.mp hsel
      subst h2
      subst h1
      exact ⟨Or.inl rfl, fun amount ha => LotteryResult.noConfusion ha⟩
    · split at hsel
      · obtain ⟨h1, h2⟩ := Prod.mk.injEq .. |>.mp hsel
        subst h2
        subst h1
        exact ⟨Or.inl rfl, fun amount ha => LotteryResult.noConfusion ha⟩
      · split at hsel
        · cases hins : insert_winner s.winners pid
              { reward_amount := 10, status := "pending" } with
          | ok w =>
              rw [hins] at hsel
              obtain ⟨h1, h2⟩ := Prod.mk.injEq .. |>.mp hsel
              subst h2
              subst h1
              have hw : w = (pid, { reward_amount := 10, status := "pending" })
                  :: s.winners := by
                unfold insert_winner at hins
                split at hins
                · exact absurd hins (by simp)
                · exact (Except.ok.inj hins).symm
              refine ⟨Or.inr ⟨pid, { reward_amount := 10, status := "pending" },
                hins⟩, fun amount ha => ?_⟩
              obtain rfl := (LotteryResult.selected.inj ha).symm
              exact ⟨rfl, hw⟩
          | error u =>
              rw [hins] at hsel
              obtain ⟨h1, h2⟩ := Prod.mk.injEq .. |>.mp hsel
              subst h2
              subst h1
              exact ⟨Or.inl rfl, fun amount ha => LotteryResult.noConfusion ha⟩
        · obtain ⟨h1, h2⟩ := Prod.mk.injEq .. |>.mp hsel
          subst h2
          subst h1
          exact ⟨Or.inl rfl, fun amount ha => LotteryResult.noConfusion ha⟩
  · intro hle hchain
    induction hchain with
    | refl => exact hle
    | tail hmid hstep ih =>
        rcases hstep with heq | ⟨pid2, row2, hins⟩
        · rw [heq]; exact ih
        · exact insert_winner_count _ _ _ _ _ hins ih

/-- C6, witness: in a state where `p1` already holds a winner row the call
is a no-op returning `already_winner`, and a two-step `WinnersWrite` chain
from the empty table keeps the count at most one. -/
theorem reward_winner_unique_and_idempotent_witness :
    ((fun st : LotteryState => st.winners.any (fun e => e.1 = "p1") = true →
        select_reward_winner st "p1" 7 (1/2) = (.alreadyWinner, st))
      { winners := [("p1", { reward_amount := 10, status := "pending" })],
        participant_stats := fun _ => none })
    ∧ (winner_count [] "p1" ≤ 1 →
        Relation.ReflTransGen WinnersWrite [] [] → winner_count [] "p1" ≤ 1) :=
  ⟨(reward_winner_unique_and_idempotent
      { winners := [("p1", { reward_amount := 10, status := "pending" })],
        participant_stats := fun _ => none } "p1" 7 (1/2) [] [] "p1").1,
   (reward_winner_unique_and_idempotent
      { winners := [("p1", { reward_amount := 10, status := "pending" })],
        participant_stats := fun _ => none } "p1" 7 (1/2) [] [] "p1").2.2⟩

/-- C7: under no existing winner row, an expired (or absent) cooldown and a
losing draw, the first call returns `not_selected` yet stamps
`last_reward_attempt_at = now`; a second call within 60 seconds returns
`cooldown_active` with `retry_after` equal to the seconds remaining in the
60-second window and leaves the state exactly as it was. -/
theorem reward_cooldown_second_call (s : LotteryState) (pid : String)
    (now0 now1 : ℤ) (draw0 draw1 : ℚ)
    (hwin : s.winners.any (fun e => e.1 = pid) = false)
    (hcool : cooldown_remaining (s.participant_stats pid) now0 = none)
    (hlose : ¬(draw0 < selection_probability
        (lottery_priority_eligible (s.participant_stats pid))
        (lottery_attention_score (s.participant_stats pid))))
    (h60 : now1 - now0 < 60) :
    (select_reward_winner s pid now0 draw0).1
        = .notSelected (lottery_priority_eligible (s.participant_stats pid))
    ∧ (∃ st, ((select_reward_winner s pid now0 draw0).2).participant_stats pid
          = some st ∧ st.last_reward_attempt_at = some now0)
    ∧ select_reward_winner ((select_reward_winner s pid now0 draw0).2) pid
          now1 draw1
        = (.cooldownActive (60 - (now1 - now0)),
           (select_reward_winner s pid now0 draw0).2) := by
  have hrun : select_reward_winner s pid now0 draw0
      = (.notSelected (lottery_priority_eligible (s.participant_stats pid)),
         { s with participant_stats :=
             stamp_last_attempt s.participant_stats pid now0 }) := by
    unfold select_reward_winner
    rw [hwin, if_neg Bool.false_ne_true, hcool]
    rw [if_neg hlose]
  rw [hrun]
  obtain ⟨st, hst, hlast⟩ := stamp_last_attempt_self s.participant_stats pid now0
  refine ⟨rfl, ⟨st, hst, hlast⟩, ?_⟩
  unfold select_reward_winner
  rw [show ({ s with participant_stats :=
      stamp_last_attempt s.participant_stats pid now0 } : LotteryState).winners
    = s.winners from rfl]
  rw [hwin, if_neg Bool.false_ne_true]
  have hc2 : cooldown_remaining
      (({ s with participant_stats :=
          stamp_last_attempt s.participant_stats pid now0 } :
            LotteryState).participant_stats pid) now1
      = some (60 - (now1 - now0)) := by
    rw [show ({ s with participant_stats :=
        stamp_last_attempt s.participant_stats pid now0 } :
          LotteryState).participant_stats pid
      = stamp_last_attempt s.participant_stats pid now0 pid from rfl]
    rw [hst]
    unfold cooldown_remaining
    dsimp only
    rw [hlast]
    dsimp only
    rw [if_pos h60]
  rw [hc2]

/-- C7, witness: `p1` with an attempt 100 seconds old loses the draw at
time 100 and is refused with `cooldown_active` and `retry_after = 30` at
time 130. -/
theorem reward_cooldown_second_call_witness :
    (select_reward_winner bugLotteryState "p1" 100 (1/2)).1
        = .notSelected (lottery_priority_eligible
            (bugLotteryState.participant_stats "p1"))
    ∧ (∃ st, ((select_reward_winner bugLotteryState "p1" 100 (1/2)).2).participant_stats
          "p1" = some st ∧ st.last_reward_attempt_at = some 100)
    ∧ select_reward_winner
          ((select_reward_winner bugLotteryState "p1" 100 (1/2)).2) "p1" 130 0
        = (.cooldownActive 30, (select_reward_winner bugLotteryState "p1" 100 (1/2)).2) :=
  reward_cooldown_second_call bugLotteryState "p1" 100 130 (1/2) 0
    rfl (by decide)
    (by
      show ¬((1:ℚ)/2 < selection_probability true 1)
      rw [selection_probability]
      norm_num)
    (by decide)

/-! ## Payment webhook claim theorem -/

/-- C4: delivering the `payment.captured` transition for an order twice is
idempotent — the replay is the identity on the state; a first delivery for
a matched, not-yet-paid order updates exactly that order to `paid` and
propagates `payment_status = 'paid'` onto its participant; a delivery for
an already-paid (or unknown) order changes nothing. -/
theorem payment_webhook_idempotent (s : PayState)
    (order_id pid1 pid2 : String) (now1 now2 : ℤ) :
    payment_webhook_captured (payment_webhook_captured s order_id pid1 now1)
        order_id pid2 now2
      = payment_webhook_captured s order_id pid1 now1
    ∧ (∀ pay, s.payments order_id = some pay → pay.status ≠ "paid" →
        ((payment_webhook_captured s order_id pid1 now1).payments order_id
            = some ({ pay with
                      status := "paid",
                      razorpay_payment_id := some pid1,
                      paid_at := some now1 })
          ∧ ∀ prow, s.participants pay.participant_id = some prow →
              (payment_webhook_captured s order_id pid1 now1).participants
                  pay.participant_id
                = some ({ prow with payment_status := "paid" })))
    ∧ (∀ pay, s.payments order_id = some pay → pay.status = "paid" →
        payment_webhook_captured s order_id pid1 now1 = s)
    ∧ (s.payments order_id = none →
        payment_webhook_captured s order_id pid1 now1 = s) := by
  have hnone : ∀ pidx nowx, s.payments order_id = none →
      payment_webhook_captured s order_id pidx nowx = s := by
    intro pidx nowx h
    unfold payment_webhook_captured
    rw [h]
  have hpaid : ∀ (s3 : PayState) pidx nowx pay, s3.payments order_id = some pay →
      pay.status = "paid" → payment_webhook_captured s3 order_id pidx nowx = s3 := by
    intro s3 pidx nowx pay h hst
    unfold payment_webhook_captured
    rw [h]
    dsimp only
    rw [if_neg (not_not_intro hst)]
  have hfresh : ∀ pay, s.payments order_id = some pay → pay.status ≠ "paid" →
      payment_webhook_captured s order_id pid1 now1
        = { payments :=
              (fun x => if x = order_id then
                  some ({ pay with
                          status := "paid",
                          razorpay_payment_id := some pid1,
                          paid_at := some now1 })
                else s.payments x),
            participants :=
              (fun x => if x = pay.participant_id then
                  (s.participants x).map
                    (fun pr => { pr with payment_status := "paid" })
                else s.participants x) } := by
    intro pay h hne
    unfold payment_webhook_captured
    rw [h]
    dsimp only
    rw [if_pos hne]
  refine ⟨?_, ?_, fun pay h hst => hpaid s pid1 now1 pay h hst, hnone pid1 now1⟩
  · cases h : s.payments order_id with
    | none =>
        rw [hnone pid1 now1 h, hnone pid2 now2 h]
    | some pay =>
        by_cases hst : pay.status = "paid"
        · rw [hpaid s pid1 now1 pay h hst, hpaid s pid2 now2 pay h hst]
        · rw [hfresh pay h hst]
          apply hpaid _ pid2 now2
            ({ pay with
               status := "paid",
               razorpay_payment_id := some pid1,
               paid_at := some now1 })
          · show (if order_id = order_id then _ else _) = _
            rw [if_pos rfl]
          · rfl
  · intro pay h hne
    rw [hfresh pay h hne]
    constructor
    · show (if order_id = order_id then _ else _) = _
      rw [if_pos rfl]
    · intro prow hprow
      show (if pay.participant_id = pay.participant_id then _ else _) = _
      rw [if_pos rfl, hprow]
      rfl

/-- C4, witness: the concrete created order `o1` of `p1` becomes `paid`
with its participant propagated on the first delivery, and the replayed
delivery is the identity. -/
theorem payment_webhook_idempotent_witness :
    payment_webhook_captured (payment_webhook_captured wPayState "o1" "pay1" 5)
        "o1" "pay1" 6
      = payment_webhook_captured wPayState "o1" "pay1" 5
    ∧ (payment_webhook_captured wPayState "o1" "pay1" 5).payments "o1"
        = some { participant_id := "p1", status := "paid",
                 razorpay_payment_id := some "pay1", paid_at := some 5 }
    ∧ (payment_webhook_captured wPayState "o1" "pay1" 5).participants "p1"
        = some { consent_given := false, payment_status := "paid" } :=
  by
  obtain ⟨hidem, hfresh, hpaid, hnone⟩ :=
    payment_webhook_idempotent wPayState "o1" "pay1" "pay1" 5 6
  refine ⟨hidem, ?_, ?_⟩
  · exact (hfresh wPayRow rfl (by decide)).1
  · exact (hfresh wPayRow rfl (by decide)).2 wParticipantUnpaid rfl

end Cognit
